import Mathlib

/-!
Shallow embedding of `code.py` (Portable_Air_Quality air monitor) and
verification of the specification's claims about it.

Conventions of the embedding:
* machine reals are embedded as rationals (`ℚ`);
* uncaught Python exceptions become an explicit `PyExn` outcome;
* the busy-wait loops, whose exit depends on external sensor and clock
  behaviour, take a fuel argument: a result of `none` means the loop has
  not exited within the given number of iterations;
* external reads (`time.monotonic()`, `scd.data_available`, `pm25.read()`)
  are modelled as input functions from the read's index to its result.
-/

set_option maxRecDepth 40000

namespace AirMonitor

/-- Python exceptions the embedded code can raise and not catch. -/
inductive PyExn where
  | nameError (missing : String)
  | zeroDivisionError
  deriving DecidableEq, Repr

/-- Display colors the embedded code assigns (configuration colors included;
`co2AlarmColor` stands for the configured `CO2_ALARM[1]`). -/
inductive Color where
  | red
  | yellow
  | gray
  | blue
  | black
  | white
  | purple
  | cyan
  | green
  | orange
  | maroon
  | co2AlarmColor
  deriving DecidableEq, Repr

/-- Python `round(x)` to an integer: nearest, ties to even. -/
def pyRound (x : ℚ) : ℤ :=
  if x - ⌊x⌋ < 1/2 then ⌊x⌋
  else if (1 : ℚ)/2 < x - ⌊x⌋ then ⌊x⌋ + 1
  else if ⌊x⌋ % 2 = 0 then ⌊x⌋ else ⌊x⌋ + 1

/-- Python `round(x, 2)`: rounded to 2 decimal places, ties to even. -/
def pyRound2 (x : ℚ) : ℚ := (pyRound (x * 100) : ℚ) / 100

/-- Python `int(x)`: truncation toward zero. -/
def pyInt (x : ℚ) : ℤ := if 0 ≤ x then ⌊x⌋ else ⌈x⌉

/-- Clamp a rational to the interval `[0, 1]`. -/
def clamp01 (x : ℚ) : ℚ := min (max x 0) 1

/-- `celsius_to_fahrenheit` (cedargrove_unit_converter, not under src/).
Modelled from the spec: the standard Celsius-to-Fahrenheit conversion
applied before rounding when the configured unit is Fahrenheit. -/
def celsius_to_fahrenheit (c : ℚ) : ℚ := c * 9 / 5 + 32

/-- `co2_ppm_to_quality` (cedargrove_unit_converter, not under src/).
Modelled from the spec: `classify(value) -> (valid, value, color, label)`
(spec §4.3).  The validity flag is false below 100 ppm, following code.py's
own battery-monitor comment ("sensor data is potentially invalid (measured
value is less than 100)"); values above the 6000 ppm scale maximum are
pinned at it (spec §4.4: "values above maximum are pinned").  Tier colors
and labels follow the CO2 reference scale code.py builds (good to 1000,
poor to 2000, warning to 5000, danger to 6000). -/
def co2_ppm_to_quality (ppm : ℤ) : Bool × ℤ × Color × String :=
  let tier : Color × String :=
    if ppm ≤ 1000 then (Color.green, "GOOD")
    else if ppm ≤ 2000 then (Color.yellow, "POOR")
    else if ppm ≤ 5000 then (Color.orange, "WARNING")
    else (Color.red, "DANGER")
  (decide (100 ≤ ppm), min ppm 6000, tier.1, tier.2)

/-- `concentration_to_aqi` (cedargrove_unit_converter, not under src/).
Modelled from the spec: maps a pm2.5 concentration onto the 0-500 US AQI
scale, pinned at the 500 maximum (spec §4.4); the spec gives no piecewise
breakpoints, so the embedded map is the pinned identity on that scale.
Tier colors and labels follow the AQI reference scale code.py builds. -/
def concentration_to_aqi (conc : ℚ) : Bool × ℚ × Color × String :=
  let aqi := min (max conc 0) 500
  let tier : Color × String :=
    if aqi ≤ 50 then (Color.green, "GOOD")
    else if aqi ≤ 100 then (Color.yellow, "MODERATE")
    else if aqi ≤ 150 then (Color.orange, "SENS UNHEALTHY")
    else if aqi ≤ 200 then (Color.red, "UNHEALTHY")
    else if aqi ≤ 300 then (Color.purple, "VERY UNHEALTHY")
    else (Color.maroon, "HAZARDOUS")
  (true, aqi, tier.1, tier.2)

/-- The trend-buffer push both frame functions perform on their chart
(code.py lines 233-234 and 277-278): `chart.pop(0)` then `chart.append(v)`.
(On an empty list Python's `pop(0)` would raise; both charts are pre-seeded
to their fixed capacity at startup, code.py lines 291-322, so every push in
the program acts on a non-empty chart.) -/
def trendPush (chart : List ℚ) (v : ℚ) : List ℚ := chart.drop 1 ++ [v]

/-- A sequence of trend-buffer pushes, oldest pushed value first. -/
def trendPushAll (chart : List ℚ) (vs : List ℚ) : List ℚ := vs.foldl trendPush chart

/-- The display fields of the CO2 channel that `update_co2_image_frame`
mutates, together with the CO2 trend chart and the stream of status
flashes the call emits.  A text field holding `none` models the " "
placeholder Python puts there before any reading is shown. -/
structure CO2Display where
  co2Text : Option ℤ
  qualText : String
  qualColor : Option Color
  humidText : Option ℤ
  tempText : Option ℤ
  alarmText : Option ℤ
  pointerFill : Option Color
  pointerY : ℤ
  pointerShadowY : ℤ
  watchdogFill : Option Color
  chart : List ℚ
  flashes : List String
  deriving DecidableEq, Repr

/-- The inputs of one `update_co2_image_frame` call: parameters,
configuration, the external reads and the display state at entry.
`avail i` is the value of `scd.data_available` at its i-th read of the
call; `clock j` is the j-th `time.monotonic()` read (`clock 0` is `t0`);
`co2`, `rh`, `temp` are the sensor registers read when data is available;
`alarmPpm` is the configured `CO2_ALARM[0]`. -/
structure CO2Env where
  blocking : Bool
  waitTime : ℚ
  sensorExists : Bool
  avail : ℕ → Bool
  clock : ℕ → ℚ
  co2 : ℚ
  rh : ℚ
  temp : ℚ
  tempUnitF : Bool
  alarmPpm : ℤ
  height : ℤ
  disp : CO2Display

/-- The busy-wait of `update_co2_image_frame` (code.py lines 181-187):
`while blocking and (not scd.data_available) and (t0 - time.monotonic() < wait_time)`,
with a red watchdog fill and a "WARMUP" status flash in the body.  The
guard's conjuncts short-circuit left to right, so a non-blocking call reads
neither the data-ready flag nor the clock here.  Returns the display and
the next unread avail/clock indices at exit; `none` when the loop has not
exited within `fuel` iterations.  Note the guard compares `t0 - now`, not
`now - t0`, exactly as the source does. -/
def waitLoop (env : CO2Env) : ℕ → ℕ → ℕ → CO2Display → Option (CO2Display × ℕ × ℕ)
  | fuel, i, j, d =>
    if env.blocking = false then some (d, i, j)
    else if env.avail i = true then some (d, i + 1, j)
    else if env.waitTime ≤ env.clock 0 - env.clock j then some (d, i + 1, j + 1)
    else
      match fuel with
      | 0 => none
      | f + 1 =>
        waitLoop env f (i + 1) (j + 1)
          { d with watchdogFill := some Color.red, flashes := d.flashes ++ ["WARMUP"] }

/-- `update_co2_image_frame` (code.py lines 173-235).  Returns `none` when
the blocking wait has not exited within `fuel` iterations, otherwise the
Python outcome: an uncaught exception, or `(sensor_data_valid, display)`.
`sensor_data_valid` is initialized `True` and reassigned only by the
classifier when data is available.  In the overrange branch the source
assigns to the undefined name `co2_poointer_shadow` (line 217), which
raises `NameError`; the pointer fill set just before is lost with the
frame, as the exception propagates out of the call.  The trend-bar
repositioning loop (lines 228-232) only re-renders existing chart values
and is not part of the observable state modelled here. -/
def update_co2_image_frame (env : CO2Env) (fuel : ℕ) :
    Option (Except PyExn (Bool × CO2Display)) :=
  if env.sensorExists = false then some (Except.ok (true, env.disp))
  else
    match waitLoop env fuel 0 1 env.disp with
    | none => none
    | some (d, i, _) =>
      if env.avail i = false then some (Except.ok (true, d))
      else
        let q := co2_ppm_to_quality (pyRound env.co2)
        let valid := q.1
        let co2v := q.2.1
        let norm : ℚ := (co2v : ℚ) / 6000
        let tempC := pyRound env.temp
        let temp := if env.tempUnitF then pyRound (celsius_to_fahrenheit tempC) else tempC
        let d1 := { d with watchdogFill := some Color.yellow, qualColor := some q.2.2.1 }
        if co2v < 6000 then
          let y : ℤ := env.height - pyInt (norm * (env.height : ℚ)) - 3
          some (Except.ok (valid,
            { d1 with
              pointerFill := some Color.gray
              pointerY := y
              pointerShadowY := y
              qualText := q.2.2.2
              co2Text := some co2v
              humidText := some (pyRound env.rh)
              tempText := some temp
              alarmText := some env.alarmPpm
              chart := trendPush d1.chart norm }))
        else
          some (Except.error (PyExn.nameError "co2_poointer_shadow"))

/-- An externally visible event of the particulate sampling loop. -/
inductive AqEvent where
  | readFail
  | readOk (v : ℚ)
  | sleep
  deriving DecidableEq, Repr

/-- The sampling loop of `sample_aq_sensor` (code.py lines 136-146) as the
list of its externally visible events, in order: `readFail` is a
`pm25.read()` raising `RuntimeError` (caught; the loop `continue`s straight
back to the guard, neither sleeping nor appending), `readOk v` a successful
read whose pm25-env value `v` is appended to the samples, `sleep` the 1 s
pacing sleep executed after a successful read.  `clock 0` is `time_start`;
the guard's k-th evaluation (1-based) reads `clock k`; `reads k` is the
k-th `pm25.read()` (0-based).  Each loop iteration, failed or successful,
consumes one guard clock read and one sensor read.  `none` when the loop
has not exited within `fuel` iterations. -/
def sampleLoop (clock : ℕ → ℚ) (reads : ℕ → Option ℚ) :
    ℕ → ℕ → Option (List AqEvent)
  | 0, _ => none
  | fuel + 1, k =>
    if clock (k + 1) - clock 0 ≤ 23/10 then
      match reads k with
      | none =>
        (sampleLoop clock reads fuel (k + 1)).map (fun es => AqEvent.readFail :: es)
      | some v =>
        (sampleLoop clock reads fuel (k + 1)).map
          (fun es => AqEvent.readOk v :: AqEvent.sleep :: es)
    else some []

/-- The pm25-env values successfully read, in order: the `aq_samples` list. -/
def samplesOf (es : List AqEvent) : List ℚ :=
  es.filterMap (fun e =>
    match e with
    | AqEvent.readOk v => some v
    | _ => none)

/-- `sample_aq_sensor` (code.py lines 127-152): runs the 2.3 s sampling
window, sums the collected samples and divides by their count.  With zero
samples the final `aq_reading / len(aq_samples)` is a division by zero,
which Python raises as an uncaught `ZeroDivisionError`. -/
def sample_aq_sensor (clock : ℕ → ℚ) (reads : ℕ → Option ℚ) (fuel : ℕ) :
    Option (Except PyExn ℚ) :=
  (sampleLoop clock reads fuel 0).map (fun es =>
    if (samplesOf es).length = 0 then Except.error PyExn.zeroDivisionError
    else Except.ok ((samplesOf es).sum / ((samplesOf es).length : ℚ)))

/-- The display fields of the particulate channel that
`update_aqi_image_frame` mutates, with the AQI trend chart and the status
flashes the call emits. -/
structure AQIDisplay where
  aqiText : Option ℚ
  qualText : String
  qualColor : Option Color
  pointerFill : Option Color
  pointerY : ℤ
  pointerShadowY : ℤ
  chart : List ℚ
  flashes : List String
  deriving DecidableEq, Repr

/-- The inputs of one `update_aqi_image_frame` call: the capability flag,
the external reads feeding `sample_aq_sensor`, the display height, and the
display state at entry. -/
structure AQIEnv where
  sensorExists : Bool
  clock : ℕ → ℚ
  reads : ℕ → Option ℚ
  height : ℤ
  disp : AQIDisplay

/-- `update_aqi_image_frame` (code.py lines 238-279).  Its
`sensor_data_valid` local is initialized `True` at line 243 and never
reassigned anywhere in the body (the classifier flag at line 251 is bound
to the separate name `flag`), so every normal return yields `True`.  A
`ZeroDivisionError` raised inside `sample_aq_sensor` propagates uncaught;
`none` models the sampling loop not exiting within `fuel`.  The Python
function's `blocking`/`wait_time` parameters are unused in its body and
omitted.  The trend-bar repositioning loop (lines 272-276) only re-renders
existing chart values and is not part of the observable state modelled
here. -/
def update_aqi_image_frame (env : AQIEnv) (fuel : ℕ) :
    Option (Except PyExn (Bool × AQIDisplay)) :=
  if env.sensorExists = false then some (Except.ok (true, env.disp))
  else
    match sample_aq_sensor env.clock env.reads fuel with
    | none => none
    | some (Except.error e) => some (Except.error e)
    | some (Except.ok pm25) =>
      let q := concentration_to_aqi pm25
      let aqi := q.2.1
      let norm : ℚ := aqi / 500
      let d0 := { env.disp with qualColor := some q.2.2.1 }
      let d1 :=
        if aqi < 500 then
          { d0 with
            pointerFill := some Color.purple
            pointerY := env.height - pyInt (norm * (env.height : ℚ)) - 3
            pointerShadowY := env.height - pyInt (norm * (env.height : ℚ)) - 3 }
        else
          { d0 with
            pointerFill := some Color.red
            pointerY := 0
            pointerShadowY := 0
            flashes := d0.flashes ++ ["OVERRANGE"] }
      some (Except.ok (true,
        { d1 with
          qualText := q.2.2.2
          aqiText := some aqi
          chart := trendPush d1.chart norm }))

/-- The per-cycle CO2 alarm condition (code.py line 627):
`co2_value.text != " " and float(co2_value.text) >= CO2_ALARM[0]`.  The
displayed reading is `none` for the initial " " placeholder, otherwise the
displayed integer.  The condition is stateless: a pure function of the
current displayed reading and the configured threshold, recomputed every
loop iteration with no stored alarm state. -/
def alarmTriggered (reading : Option ℤ) (threshold : ℤ) : Bool :=
  match reading with
  | none => false
  | some v => decide (threshold ≤ v)

/-- Battery voltage from the raw ADC count (code.py line 640):
`round(battery_mon.value * 6.6 / 0xFFF0, 2)`. -/
def batteryVolts (raw : ℕ) : ℚ := pyRound2 ((raw : ℚ) * (66/10) / 65520)

/-- The low-battery alert condition (code.py line 641):
`(not sensor_valid) and battery_volts < 3.3`. -/
def lowBatteryAlert (raw : ℕ) (sensorValid : Bool) : Bool :=
  !sensorValid && decide (batteryVolts raw < 33/10)

/-! ### Projections of frame results and concrete inputs -/

/-- The sensor-valid flag of a CO2 frame call that returned normally. -/
def validFlagOf (r : Option (Except PyExn (Bool × CO2Display))) : Option Bool :=
  match r with
  | some (Except.ok (b, _)) => some b
  | _ => none

/-- The display of a CO2 frame call that returned normally. -/
def co2DisplayOf (r : Option (Except PyExn (Bool × CO2Display))) : Option CO2Display :=
  match r with
  | some (Except.ok (_, d)) => some d
  | _ => none

/-- The trend chart of a CO2 frame call that returned normally. -/
def co2ChartOf (r : Option (Except PyExn (Bool × CO2Display))) : Option (List ℚ) :=
  match r with
  | some (Except.ok (_, d)) => some d.chart
  | _ => none

/-- The trend chart of a particulate frame call that returned normally. -/
def aqiChartOf (r : Option (Except PyExn (Bool × AQIDisplay))) : Option (List ℚ) :=
  match r with
  | some (Except.ok (_, d)) => some d.chart
  | _ => none

/-- A CO2 display state before any reading is shown: placeholder texts,
parked pointer, chart pre-seeded (here to capacity 3 with the no-data
seed, the display height, as at code.py line 303). -/
def co2Disp0 : CO2Display :=
  { co2Text := none
    qualText := ""
    qualColor := none
    humidText := none
    tempText := none
    alarmText := none
    pointerFill := none
    pointerY := 130
    pointerShadowY := 130
    watchdogFill := none
    chart := [128, 128, 128]
    flashes := [] }

/-- A non-blocking `update_co2_image_frame` call on which the sensor exists
but reports no data available. -/
def envMissNB : CO2Env :=
  { blocking := false
    waitTime := 3
    sensorExists := true
    avail := fun _ => false
    clock := fun _ => 0
    co2 := 0
    rh := 0
    temp := 0
    tempUnitF := false
    alarmPpm := 2500
    height := 128
    disp := co2Disp0 }

/-- A blocking call on which the sensor never reports data available; the
monotonic clock advances one second per read. -/
def envBlockForever : CO2Env :=
  { envMissNB with blocking := true, clock := fun j => (j : ℚ) }

/-- A non-blocking call on which data is available and `scd.CO2` reads as
the given ppm value. -/
def envCO2 (ppm : ℚ) : CO2Env :=
  { envMissNB with avail := fun _ => true, co2 := ppm, rh := 45, temp := 20 }

/-- An AQI display state before any reading is shown. -/
def aqiDisp0 : AQIDisplay :=
  { aqiText := none
    qualText := ""
    qualColor := none
    pointerFill := none
    pointerY := 130
    pointerShadowY := 130
    chart := [128, 128, 128]
    flashes := [] }

/-- A monotonic clock advancing half a second per read: the 2.3 s window
admits exactly four loop iterations (guard reads 0.5 s to 2.0 s; the fifth
guard read, 2.5 s, closes the window). -/
def aqClockC : ℕ → ℚ := fun j => (j : ℚ) / 2

/-- A particulate read trace: success (10), a transient RuntimeError,
then successes 20 and 30. -/
def aqReadsC : ℕ → Option ℚ := fun k =>
  if k = 0 then some 10
  else if k = 2 then some 20
  else if k = 3 then some 30
  else none

/-- The event list `sampleLoop` produces on `aqClockC`/`aqReadsC`: the
failed read is followed directly by the next read, with no sleep and no
appended sample, and the window continues past it. -/
def aqEventsC : List AqEvent :=
  [AqEvent.readOk 10, AqEvent.sleep, AqEvent.readFail,
   AqEvent.readOk 20, AqEvent.sleep, AqEvent.readOk 30, AqEvent.sleep]

/-- A particulate frame call whose sampling window collects 10, 20, 30
around one transient failure. -/
def aqiEnvC4 : AQIEnv :=
  { sensorExists := true
    clock := aqClockC
    reads := aqReadsC
    height := 128
    disp := aqiDisp0 }

/-- A particulate frame call on which every read returns a concentration
of 600, beyond the 500 AQI scale maximum. -/
def aqiEnvOver : AQIEnv :=
  { aqiEnvC4 with reads := fun _ => some 600 }

/-! ### Helper lemmas about the trend buffer -/

theorem trendPush_ne_nil (l : List ℚ) (v : ℚ) : trendPush l v ≠ [] := by
  simp [trendPush]

theorem trendPush_length (l : List ℚ) (v : ℚ) (h : l ≠ []) :
    (trendPush l v).length = l.length := by
  have : 1 ≤ l.length := List.length_pos.mpr h
  simp [trendPush]
  omega

theorem trendPush_eq_drop (l : List ℚ) (v : ℚ) (h : l ≠ []) :
    trendPush l v = (l ++ [v]).drop 1 := by
  have h1 : 1 ≤ l.length := List.length_pos.mpr h
  rw [trendPush, List.drop_append_of_le_length h1]

theorem sampleLoop_sleep_count (clock : ℕ → ℚ) (reads : ℕ → Option ℚ) :
    ∀ (fuel k : ℕ) (es : List AqEvent),
      sampleLoop clock reads fuel k = some es →
        es.count AqEvent.sleep = (samplesOf es).length := by
  intro fuel
  induction fuel with
  | zero =>
    intro k es h
    simp [sampleLoop] at h
  | succ f ih =>
    intro k es h
    unfold sampleLoop at h
    by_cases hg : clock (k + 1) - clock 0 ≤ 23/10
    · rw [if_pos hg] at h
      cases hr : reads k with
      | none =>
        rw [hr] at h
        cases hs : sampleLoop clock reads f (k + 1) with
        | none => rw [hs] at h; simp at h
        | some es' =>
          rw [hs] at h
          simp only [Option.map_some'] at h
          cases h
          have := ih (k + 1) es' hs
          simpa [samplesOf] using this
      | some v =>
        rw [hr] at h
        cases hs : sampleLoop clock reads f (k + 1) with
        | none => rw [hs] at h; simp at h
        | some es' =>
          rw [hs] at h
          simp only [Option.map_some'] at h
          cases h
          have := ih (k + 1) es' hs
          simpa [samplesOf] using this
    · rw [if_neg hg] at h
      cases h
      simp [samplesOf]

theorem sample_aq_sensor_mean (clock : ℕ → ℚ) (reads : ℕ → Option ℚ)
    (fuel : ℕ) (r : ℚ)
    (h : sample_aq_sensor clock reads fuel = some (Except.ok r)) :
    ∃ es, sampleLoop clock reads fuel 0 = some es
      ∧ samplesOf es ≠ []
      ∧ r = (samplesOf es).sum / ((samplesOf es).length : ℚ) := by
  unfold sample_aq_sensor at h
  cases hs : sampleLoop clock reads fuel 0 with
  | none => rw [hs] at h; simp at h
  | some es =>
    rw [hs] at h
    simp only [Option.map_some', Option.some_inj] at h
    by_cases hl : (samplesOf es).length = 0
    · rw [if_pos hl] at h
      exact absurd h (by simp)
    · rw [if_neg hl] at h
      refine ⟨es, rfl, ?_, ?_⟩
      · intro hnil
        exact hl (by simp [hnil])
      · cases h
        rfl

theorem trendPushAll_eq_drop (vs l : List ℚ) (h : 1 ≤ l.length) :
    trendPushAll l vs = (l ++ vs).drop vs.length := by
  induction vs generalizing l with
  | nil => simp [trendPushAll]
  | cons v vs ih =>
    have hne : l ≠ [] := List.length_pos.mp h
    have hlen : 1 ≤ (trendPush l v).length := by
      rw [trendPush_length l v hne]; exact h
    have step : trendPushAll l (v :: vs) = trendPushAll (trendPush l v) vs := rfl
    rw [step, ih (trendPush l v) hlen, trendPush_eq_drop l v hne]
    have h1 : 1 ≤ (l ++ [v]).length := by
      simp
    rw [← List.drop_append_of_le_length h1, List.drop_drop]
    have assoc : l ++ [v] ++ vs = l ++ v :: vs := by simp
    rw [assoc, Nat.add_comm]
    rfl

theorem trendPushAll_cons (l : List ℚ) (v : ℚ) (vs : List ℚ) :
    trendPushAll l (v :: vs) = trendPushAll (trendPush l v) vs := rfl

/-! ### The claims -/

/-- C1 (amended): when the CO2 sensor exists and a non-blocking call finds
no data available, `update_co2_image_frame` leaves every display value and
the trend buffer unchanged but returns `sensor_data_valid = true` — the
flag's initialized default — not `false` as the claim states.  (A blocking
call whose data never arrives does not return at all: its wait never times
out, so no blocking-timeout return exists.) -/
theorem c1_nonblocking_miss_keeps_display_returns_true
    (env : CO2Env) (fuel : ℕ) (hs : env.sensorExists = true)
    (hb : env.blocking = false) (ha : env.avail 0 = false) :
    update_co2_image_frame env fuel = some (Except.ok (true, env.disp)) := by
  unfold update_co2_image_frame waitLoop
  simp [hs, hb, ha]

theorem c1_witness_nonblocking_miss :
    update_co2_image_frame envMissNB 5 = some (Except.ok (true, envMissNB.disp)) :=
  c1_nonblocking_miss_keeps_display_returns_true envMissNB 5 rfl rfl rfl

/-- C1 counterexample: on a concrete call with the sensor present, the call
non-blocking, and `scd.data_available` false, the function reports
`sensor_data_valid = true`, not the `valid = false` the claim states (the
display, trend buffer included, is indeed unchanged). -/
theorem c1_counterexample_miss_reports_valid_true :
    validFlagOf (update_co2_image_frame envMissNB 5) = some true
    ∧ co2DisplayOf (update_co2_image_frame envMissNB 5) = some envMissNB.disp :=
  ⟨by with_unfolding_all rfl, by with_unfolding_all rfl⟩

/-- C2 (refuted; the code contradicts its own docstring): with `blocking`
true and data never available, the busy-wait guard compares
`t0 - time.monotonic()`, which is never positive on a monotonic clock, so
it stays below `wait_time` forever and the loop never exits — for every
iteration bound `fuel`, the call is still inside the loop.  The claimed
`wait_time` bound does not exist. -/
theorem c2_blocking_wait_never_times_out
    (env : CO2Env) (hs : env.sensorExists = true) (hb : env.blocking = true)
    (ha : ∀ i, env.avail i = false) (hc : ∀ j, env.clock 0 ≤ env.clock j)
    (hw : 0 < env.waitTime) :
    ∀ fuel : ℕ, update_co2_image_frame env fuel = none := by
  have h1 : ¬ env.blocking = false := by simp [hb]
  have h3 : ∀ j, ¬ env.waitTime ≤ env.clock 0 - env.clock j := by
    intro j
    have := hc j
    intro hle
    linarith
  have loop : ∀ fuel i j d, waitLoop env fuel i j d = none := by
    intro fuel
    induction fuel with
    | zero =>
      intro i j d
      unfold waitLoop
      simp [h1, ha i, h3 j]
    | succ f ih =>
      intro i j d
      unfold waitLoop
      simp only [h1, ha i, h3 j, if_false, if_neg]
      simp only [Bool.false_eq_true, if_false]
      exact ih (i + 1) (j + 1) _
  intro fuel
  unfold update_co2_image_frame
  simp [hs, loop]

theorem c2_witness_blocking_wait :
    update_co2_image_frame envBlockForever 1000 = none :=
  c2_blocking_wait_never_times_out envBlockForever rfl rfl (fun _ => rfl)
    (fun j => by
      show ((0 : ℕ) : ℚ) ≤ ((j : ℕ) : ℚ)
      exact_mod_cast Nat.zero_le j)
    (by show (0 : ℚ) < 3; norm_num) 1000

/-- C3 (the code lacks the required guard): a sampling window that elapses
with zero successful reads — here every `pm25.read()` raises RuntimeError
while the clock advances 0.5 s per read — reaches the final average with
`len(aq_samples) == 0` and raises a bare `ZeroDivisionError`, not a
dedicated sampling error. -/
theorem c3_zero_sample_window_raises_zero_division :
    sample_aq_sensor aqClockC (fun _ => none) 10
      = some (Except.error PyExn.zeroDivisionError) := by with_unfolding_all rfl

/-- C4: over the 2.3 s window, (i) the loop sleeps exactly once per
appended sample, so a failed read neither sleeps nor appends; (ii) every
normal return is the arithmetic mean of the successfully read pm25 values,
which are nonempty; (iii) on a concrete trace with a transient failure
between successes 10, 20, 30, the failure is followed directly by the next
read (no sleep, window not aborted) and the result is the mean 20. -/
theorem c4_sampling_window_mean_and_retry :
    (∀ (clock : ℕ → ℚ) (reads : ℕ → Option ℚ) (fuel k : ℕ) (es : List AqEvent),
        sampleLoop clock reads fuel k = some es →
          es.count AqEvent.sleep = (samplesOf es).length)
    ∧ (∀ (clock : ℕ → ℚ) (reads : ℕ → Option ℚ) (fuel : ℕ) (r : ℚ),
        sample_aq_sensor clock reads fuel = some (Except.ok r) →
          ∃ es, sampleLoop clock reads fuel 0 = some es
            ∧ samplesOf es ≠ []
            ∧ r = (samplesOf es).sum / ((samplesOf es).length : ℚ))
    ∧ sampleLoop aqClockC aqReadsC 10 0 = some aqEventsC
    ∧ sample_aq_sensor aqClockC aqReadsC 10 = some (Except.ok 20) :=
  ⟨sampleLoop_sleep_count, sample_aq_sensor_mean, by with_unfolding_all rfl,
    by with_unfolding_all rfl⟩

/-- C5: a trend buffer of capacity `N ≥ 1` keeps length exactly `N` under
any sequence of `N + k` pushes, and afterwards holds precisely the `N`
most recent pushed values in arrival order (`vs.drop k`), never reordered.
Both frame functions push through `trendPush` (code.py lines 233-234 and
277-278). -/
theorem c5_trend_buffer_fifo (N k : ℕ) (l vs : List ℚ)
    (hN : 1 ≤ N) (hl : l.length = N) (hvs : vs.length = N + k) :
    (trendPushAll l vs).length = N ∧ trendPushAll l vs = vs.drop k := by
  have h1 : 1 ≤ l.length := hl ▸ hN
  have he := trendPushAll_eq_drop vs l h1
  constructor
  · rw [he]
    simp [hl, hvs]
  · rw [he, hvs, ← hl, ← List.drop_drop, List.drop_left]

theorem c5_witness_trend_buffer :
    (trendPushAll [0, 0] [1, 2, 3]).length = 2
    ∧ trendPushAll [0, 0] [1, 2, 3] = [1, 2, 3].drop 1 :=
  c5_trend_buffer_fifo 2 1 [0, 0] [1, 2, 3] (by norm_num) rfl rfl

/-- C6 (the CO2 overrange half fails on the code): with the spec-modelled
classifiers pinning values at their scale maxima, every particulate push
equals `clamp(aqi/500, 0, 1)` — the concrete overrange window (reads of
600) pushes exactly 1.0 — and a completed in-range CO2 cycle pushes
exactly `clamp(v/6000, 0, 1)`; but a CO2 reading at the 6000 maximum never
pushes its pinned 1.0: the overrange branch raises `NameError` (the
undefined name `co2_poointer_shadow`, code.py line 217) before reaching
the push. -/
theorem c6_normalization_clamped_but_co2_overrange_faults :
    co2ChartOf (update_co2_image_frame (envCO2 3000) 5)
        = some (trendPush co2Disp0.chart (clamp01 ((3000 : ℚ) / 6000)))
    ∧ update_co2_image_frame (envCO2 6000) 5
        = some (Except.error (PyExn.nameError "co2_poointer_shadow"))
    ∧ aqiChartOf (update_aqi_image_frame aqiEnvOver 10)
        = some (trendPush aqiDisp0.chart (clamp01 ((600 : ℚ) / 500)))
    ∧ (∀ c : ℚ, (concentration_to_aqi c).2.1 / 500 = clamp01 (c / 500))
    ∧ (∀ ppm : ℕ, ((co2_ppm_to_quality (ppm : ℤ)).2.1 : ℚ) / 6000
        = clamp01 ((ppm : ℚ) / 6000)) := by
  refine ⟨by with_unfolding_all rfl, by with_unfolding_all rfl,
    by with_unfolding_all rfl, ?_, ?_⟩
  · intro c
    show min (max c 0) 500 / 500 = clamp01 (c / 500)
    unfold clamp01
    rw [← min_div_div_right (by norm_num : (0 : ℚ) ≤ 500),
      ← max_div_div_right (by norm_num : (0 : ℚ) ≤ 500)]
    norm_num
  · intro ppm
    show ((min (ppm : ℤ) 6000 : ℤ) : ℚ) / 6000 = clamp01 ((ppm : ℚ) / 6000)
    unfold clamp01
    push_cast
    rw [← min_div_div_right (by norm_num : (0 : ℚ) ≤ 6000),
      max_eq_left (by positivity)]
    norm_num

/-- C7: the alarm condition is a pure function of the currently displayed
reading and the configured threshold, recomputed each cycle with no stored
state: it triggers exactly when a reading is displayed and is at least the
threshold; the threshold itself triggers, threshold minus one does not,
and any cycle whose reading is below the threshold is immediately
not-triggered (nothing is latched). -/
theorem c7_alarm_stateless_exact_threshold :
    (∀ (t : Option ℤ) (thr : ℤ),
        alarmTriggered t thr = true ↔ ∃ v, t = some v ∧ thr ≤ v)
    ∧ (∀ thr : ℤ, alarmTriggered (some thr) thr = true)
    ∧ (∀ thr : ℤ, alarmTriggered (some (thr - 1)) thr = false)
    ∧ (∀ (thr v : ℤ), v < thr → alarmTriggered (some v) thr = false) := by
  refine ⟨?_, ?_, ?_, ?_⟩
  · intro t thr
    cases t with
    | none => simp [alarmTriggered]
    | some v => simp [alarmTriggered]
  · intro thr
    simp [alarmTriggered]
  · intro thr
    simp [alarmTriggered]
  · intro thr v h
    simp [alarmTriggered]
    omega

/-- C8 (refuted by a source defect): a CO2 reading at or beyond the 6000
maximum does not complete the cycle — the overrange branch's chained
assignment names the undefined `co2_poointer_shadow` (code.py line 217),
so the call raises `NameError` before flashing the overrange warning,
before updating the displayed value, and before any alarm comparison can
use the reading. -/
theorem c8_overrange_co2_cycle_faults :
    update_co2_image_frame (envCO2 6500) 5
      = some (Except.error (PyExn.nameError "co2_poointer_shadow")) := by
  with_unfolding_all rfl

/-- C9: the battery check computes `volts = round(raw * 6.6 / 0xFFF0, 2)`
— the full-scale count 0xFFF0 gives exactly 6.6 V — and alerts exactly
when the cycle's sensor flag is false and the volts are below 3.3; with
the flag true there is no alert for any raw count. -/
theorem c9_battery_volts_and_gating :
    batteryVolts 0xFFF0 = 66/10
    ∧ lowBatteryAlert 0xFFF0 false = false
    ∧ (∀ raw : ℕ, lowBatteryAlert raw true = false)
    ∧ (∀ (raw : ℕ) (sv : Bool),
        lowBatteryAlert raw sv = true ↔ sv = false ∧ batteryVolts raw < 33/10) := by
  refine ⟨by with_unfolding_all rfl, by with_unfolding_all rfl, ?_, ?_⟩
  · intro raw
    simp [lowBatteryAlert]
  · intro raw sv
    cases sv <;> simp [lowBatteryAlert]

/-- C10: `update_aqi_image_frame` can never report the sensor invalid: on
every input it either is still inside the sampling loop, propagates an
exception, or returns normally with `sensor_data_valid = true` — the flag
is initialized `True` and no path assigns `False`, so the particulate
channel never enables the battery monitor's gating condition. -/
theorem c10_aqi_frame_always_reports_valid :
    ∀ (env : AQIEnv) (fuel : ℕ),
      update_aqi_image_frame env fuel = none
      ∨ (∃ e, update_aqi_image_frame env fuel = some (Except.error e))
      ∨ (∃ d, update_aqi_image_frame env fuel = some (Except.ok (true, d))) := by
  intro env fuel
  unfold update_aqi_image_frame
  by_cases hs : env.sensorExists = false
  · rw [if_pos hs]
    exact Or.inr (Or.inr ⟨env.disp, rfl⟩)
  · rw [if_neg hs]
    cases h : sample_aq_sensor env.clock env.reads fuel with
    | none => exact Or.inl rfl
    | some r =>
      cases r with
      | error e => exact Or.inr (Or.inl ⟨e, rfl⟩)
      | ok pm => exact Or.inr (Or.inr ⟨_, rfl⟩)

end AirMonitor
